import Mathlib

/-!
Shallow embedding of `src/lib/grunt-helpers.js` (grunt-ss-helpers).

The repository's core is a pair of sequential, callback-chained pipelines:

* `runCommands` pops command descriptors from the front of a mutable queue,
  runs each through a shell-execution primitive (`executeCommand` / `exec`),
  recurses on success and aborts with `cb(false, stderr, stdout)` on the
  first failure;
* `runStats` pops descriptors the same way and, when `options.compile` is
  set, computes per-file size statistics (`generateStats`, built on
  `gzipSize` / `gzipfile`) for each non-empty destination path.

External collaborators (the shell, the file system via `grunt.file.read`,
and `zlib.gzip`) are modelled as explicit environment functions, so every
pipeline run is a pure function of the queue and the environment.  Each
embedded function returns a trace of the observable effects: which shell
commands were invoked, which log lines were emitted, and every invocation
of the completion callback.  JavaScript's `NaN` sentinel is modelled by a
dedicated constructor, and a synchronous JavaScript `throw` (possible in
`gzipfile`, whose file read happens outside any promise handler) by an
explicit `thrown` outcome.  ANSI color decoration (`.green`, `.red`, the
colors package) is dropped from log strings; it does not affect any claim.
-/

namespace GruntHelpers

/-! ## Command pipeline: `executeCommand` / `runCommands` -/

/-- Result of the shell-execution primitive `exec(command, cb)`:
`err` is `some e` when the callback receives a non-null error object
(rendered as a string), together with the captured `stdout`/`stderr`. -/
structure ExecResult where
  err : Option String
  stdout : String
  stderr : String
deriving DecidableEq

/-- A command descriptor from the queue handed to `runCommands`.
`dest` is `some label` when `commandObj.dest` is a string; `none` models
a missing or non-string `dest` field. -/
structure CommandObj where
  cmd : String
  dest : Option String
deriving DecidableEq

/-- One invocation of `runCommands`' completion callback: `cb(true)` or
`cb(false, stderr, stdout)`. -/
inductive CbCall where
  | success : CbCall
  | failure (stderr stdout : String) : CbCall
deriving DecidableEq

/-- Observable trace of a `runCommands` run: the shell commands handed to
`exec` in order, the error-level log lines, and every completion-callback
invocation. -/
structure RunOutcome where
  invoked : List String
  errorLogs : List String
  cbCalls : List CbCall
deriving DecidableEq

/-- Shallow embedding of `helpers.runCommands` (grunt-helpers.js:152-174)
composed with `helpers.executeCommand` (grunt-helpers.js:75-89).
`shell` is the external `exec` primitive.  The JS code destructively
`shift`s the queue; here the consumed queue is the list argument.
On `exec` error, `executeCommand` logs the error object and calls
`done(false, stderr, stdout)`; `runCommands` then normalises a
missing/non-string `dest` to the literal string `"undefined"`, logs the
failure, and calls `cb(false, stderr, stdout)` without recursing. -/
def runCommands (shell : String → ExecResult) : List CommandObj → RunOutcome
  | [] => { invoked := [], errorLogs := [], cbCalls := [CbCall.success] }
  | c :: rest =>
    let r := shell c.cmd
    match r.err with
    | some e =>
      { invoked := [c.cmd]
        errorLogs := [e, "FAILED to run command for target: " ++ c.dest.getD "undefined"]
        cbCalls := [CbCall.failure r.stderr r.stdout] }
    | none =>
      let o := runCommands shell rest
      { invoked := c.cmd :: o.invoked
        errorLogs := o.errorLogs
        cbCalls := o.cbCalls }

/-- Unfolding lemma: a prefix of commands that all succeed contributes its
command strings to the invocation trace and nothing else. -/
theorem runCommands_ok_front (shell : String → ExecResult) (pre rest : List CommandObj)
    (h : ∀ d ∈ pre, (shell d.cmd).err = none) :
    runCommands shell (pre ++ rest) =
      { invoked := pre.map (fun d => d.cmd) ++ (runCommands shell rest).invoked
        errorLogs := (runCommands shell rest).errorLogs
        cbCalls := (runCommands shell rest).cbCalls } := by
  induction pre with
  | nil => simp [runCommands]
  | cons d pre ih =>
    have hd : (shell d.cmd).err = none := h d (List.mem_cons_self d pre)
    have hrest : ∀ x ∈ pre, (shell x.cmd).err = none := fun x hx => h x (List.mem_cons_of_mem d hx)
    simp [runCommands, hd, ih hrest]

/-- Concrete shell environment for witnesses: the command string "bad"
fails with error "exit 1", everything else succeeds. -/
def shellW : String → ExecResult := fun s =>
  if s = "bad" then { err := some "exit 1", stdout := "out2", stderr := "err2" }
  else { err := none, stdout := "okout", stderr := "" }

/-- C1: if the command at position k (1-indexed) is the first to fail,
`runCommands` hands exactly the first k command strings to the shell
primitive, in queue order; commands k+1..N are never executed; and the
completion callback fires exactly once, with success=false plus the
failing command's stderr and stdout. -/
theorem runCommands_fail_fast (shell : String → ExecResult)
    (pre : List CommandObj) (c : CommandObj) (post : List CommandObj) (e : String)
    (hpre : ∀ d ∈ pre, (shell d.cmd).err = none)
    (hfail : (shell c.cmd).err = some e) :
    runCommands shell (pre ++ c :: post) =
      { invoked := pre.map (fun d => d.cmd) ++ [c.cmd]
        errorLogs := [e, "FAILED to run command for target: " ++ c.dest.getD "undefined"]
        cbCalls := [CbCall.failure (shell c.cmd).stderr (shell c.cmd).stdout] } := by
  rw [runCommands_ok_front shell pre (c :: post) hpre]
  simp [runCommands, hfail]

/-- Witness for C1 at a concrete three-command queue whose second command
fails: two shell invocations, one failure callback, third command unused. -/
theorem runCommands_fail_fast_witness :
    runCommands shellW [⟨"ok1", some "a"⟩, ⟨"bad", some "b"⟩, ⟨"never", some "z"⟩] =
      { invoked := ["ok1", "bad"]
        errorLogs := ["exit 1", "FAILED to run command for target: b"]
        cbCalls := [CbCall.failure "err2" "out2"] } := by
  have h := runCommands_fail_fast shellW [⟨"ok1", some "a"⟩] ⟨"bad", some "b"⟩
    [⟨"never", some "z"⟩] "exit 1" (by decide) (by decide)
  simpa [shellW] using h

/-- C6: on an empty command queue, `runCommands` invokes the completion
callback exactly once with success=true (carrying no stderr/stdout), and
never invokes the shell-execution primitive. -/
theorem runCommands_empty (shell : String → ExecResult) :
    runCommands shell [] = { invoked := [], errorLogs := [], cbCalls := [CbCall.success] } := rfl

/-- C8: when the failing command's descriptor has a missing/non-string
`dest`, the label is normalised to the literal string "undefined" in the
error log, the completion callback still fires once with success=false
plus the captured stderr/stdout, and no remaining queue entry is
processed. -/
theorem runCommands_fail_undefined_dest (shell : String → ExecResult)
    (pre : List CommandObj) (c : CommandObj) (post : List CommandObj) (e : String)
    (hpre : ∀ d ∈ pre, (shell d.cmd).err = none)
    (hfail : (shell c.cmd).err = some e)
    (hdest : c.dest = none) :
    runCommands shell (pre ++ c :: post) =
      { invoked := pre.map (fun d => d.cmd) ++ [c.cmd]
        errorLogs := [e, "FAILED to run command for target: undefined"]
        cbCalls := [CbCall.failure (shell c.cmd).stderr (shell c.cmd).stdout] } := by
  rw [runCommands_ok_front shell pre (c :: post) hpre]
  simp [runCommands, hfail, hdest]

/-- Witness for C8: a queue whose failing head has no `dest`; the error
log carries the literal label "undefined" and the tail is never run. -/
theorem runCommands_fail_undefined_dest_witness :
    runCommands shellW [⟨"bad", none⟩, ⟨"never", some "z"⟩] =
      { invoked := ["bad"]
        errorLogs := ["exit 1", "FAILED to run command for target: undefined"]
        cbCalls := [CbCall.failure "err2" "out2"] } := by
  have h := runCommands_fail_undefined_dest shellW [] ⟨"bad", none⟩
    [⟨"never", some "z"⟩] "exit 1" (by decide) (by decide) rfl
  simpa [shellW] using h

/-! ## Stats pipeline: `runStats` -/

/-- The nested output-file reference carried by a stats queue entry
(`commandObj.fileObj`): `dest` is `some path` when a string is present,
`none` when the field is absent (JS `undefined`). -/
structure FileObj where
  dest : Option String
deriving DecidableEq

/-- A stats queue entry: a command descriptor annotated with its
output-file reference (only `fileObj` is consulted by `runStats`). -/
structure StatsCommandObj where
  fileObj : FileObj
deriving DecidableEq

/-- The options record consulted by `runStats`; only the `compile` flag
is read. -/
structure StatsOptions where
  compile : Bool
deriving DecidableEq

/-- Observable trace of a `runStats` run: the destination paths handed to
`generateStats` in order, the info log lines, every invocation of the
completion callback, and the state of the (destructively `shift`ed)
queue when the run stops making progress. -/
structure StatsOutcome where
  statsCalls : List String
  infoLogs : List String
  cbCalls : List Bool
  finalQueue : List StatsCommandObj
deriving DecidableEq

/-- Shallow embedding of `helpers.runStats` (grunt-helpers.js:183-208).
The head is `shift`ed before anything else.  If the queue was empty,
`cb(true)`.  Otherwise, when `options.compile` holds and the head's
`fileObj.dest` is a non-empty string (JS truthiness of
`dest && dest.length`), `generateStats(dest, ...)` is started and the
run recurses on the remainder from its callback; when `dest` is absent
or empty the function body simply ends: no recursion, no callback — the
pipeline stalls with the remaining queue untouched.  When
`options.compile` is false, `cb(true)` fires with no stats work, the
head having already been removed. -/
def runStats (options : StatsOptions) : List StatsCommandObj → StatsOutcome
  | [] => { statsCalls := [], infoLogs := [], cbCalls := [true], finalQueue := [] }
  | c :: rest =>
    if options.compile then
      match c.fileObj.dest with
      | some s =>
        if s.length != 0 then
          let o := runStats options rest
          { statsCalls := s :: o.statsCalls
            infoLogs := ("File statistics for " ++ s) :: o.infoLogs
            cbCalls := o.cbCalls
            finalQueue := o.finalQueue }
        else
          { statsCalls := [], infoLogs := [], cbCalls := [], finalQueue := rest }
      | none =>
        { statsCalls := [], infoLogs := [], cbCalls := [], finalQueue := rest }
    else
      { statsCalls := [], infoLogs := [], cbCalls := [true], finalQueue := rest }

/-- C2: when `options.compile` is true and the head descriptor's
destination path is empty or absent, `runStats` performs no
file-statistics call and never fires the completion callback: the run
stalls with only the head consumed. -/
theorem runStats_stalls_on_empty_dest (options : StatsOptions)
    (c : StatsCommandObj) (rest : List StatsCommandObj)
    (hc : options.compile = true)
    (hdest : ∀ s, c.fileObj.dest = some s → s.length = 0) :
    runStats options (c :: rest) =
      { statsCalls := [], infoLogs := [], cbCalls := [], finalQueue := rest } := by
  cases hs : c.fileObj.dest with
  | none => simp [runStats, hc, hs]
  | some s =>
    have hlen : s.length = 0 := hdest s hs
    simp [runStats, hc, hs, hlen]

/-- Witness for C2: head with an empty-string destination under
compile=true; no stats call, no callback, tail left in the queue. -/
theorem runStats_stalls_on_empty_dest_witness :
    runStats ⟨true⟩ [⟨⟨some ""⟩⟩, ⟨⟨some "x"⟩⟩] =
      { statsCalls := [], infoLogs := [], cbCalls := [], finalQueue := [⟨⟨some "x"⟩⟩] } :=
  runStats_stalls_on_empty_dest ⟨true⟩ ⟨⟨some ""⟩⟩ [⟨⟨some "x"⟩⟩] rfl
    (fun s hs => by simpa using (congrArg (fun o => (o.getD "").length) hs).symm)

/-- C7: with `options.compile = false`, `runStats` fires the completion
callback exactly once with success=true and hands no queue entry to the
file-statistics computation, for every queue. -/
theorem runStats_no_compile (options : StatsOptions) (queue : List StatsCommandObj)
    (hc : options.compile = false) :
    (runStats options queue).cbCalls = [true] ∧
      (runStats options queue).statsCalls = [] := by
  cases queue with
  | nil => simp [runStats]
  | cons c rest => simp [runStats, hc]

/-- Witness for C7 on a concrete two-entry queue with compile=false. -/
theorem runStats_no_compile_witness :
    (runStats ⟨false⟩ [⟨⟨some "a"⟩⟩, ⟨⟨some "b"⟩⟩]).cbCalls = [true] ∧
      (runStats ⟨false⟩ [⟨⟨some "a"⟩⟩, ⟨⟨some "b"⟩⟩]).statsCalls = [] :=
  runStats_no_compile ⟨false⟩ [⟨⟨some "a"⟩⟩, ⟨⟨some "b"⟩⟩] rfl

/-- Helper: the queue left behind by a `runStats` run is always a suffix
of the input queue (entries are only ever removed from the front). -/
theorem runStats_finalQueue_suffix (options : StatsOptions) :
    ∀ queue : List StatsCommandObj, (runStats options queue).finalQueue <:+ queue := by
  intro queue
  induction queue with
  | nil => simp [runStats]
  | cons c rest ih =>
    by_cases hc : options.compile
    · cases hs : c.fileObj.dest with
      | none =>
        simp only [runStats, hc, if_true, hs]
        exact (List.suffix_cons c rest)
      | some s =>
        by_cases hlen : s.length != 0
        · simp only [runStats, hc, if_true, hs, hlen, if_pos]
          exact ih.trans (List.suffix_cons c rest)
        · simp only [runStats, hc, if_true, hs, hlen, if_neg]
          exact (List.suffix_cons c rest)
    · simp only [runStats, hc, if_false]
      exact (List.suffix_cons c rest)

/-- C9: on a non-empty queue, `runStats` removes the head before
inspecting `options.compile`: whatever branch is taken, the head never
survives in the queue (the final queue is a suffix of the tail); in
particular with `options.compile = false` the queue still loses its
first element even though success is reported with no stats work. -/
theorem runStats_shifts_before_compile_check (options : StatsOptions)
    (c : StatsCommandObj) (rest : List StatsCommandObj) :
    (runStats options (c :: rest)).finalQueue <:+ rest ∧
      (options.compile = false →
        runStats options (c :: rest) =
          { statsCalls := [], infoLogs := [], cbCalls := [true], finalQueue := rest }) := by
  constructor
  · by_cases hc : options.compile
    · cases hs : c.fileObj.dest with
      | none => simp [runStats, hc, hs]
      | some s =>
        by_cases hlen : s.length != 0
        · simp only [runStats, hc, if_true, hs, hlen, if_pos]
          exact runStats_finalQueue_suffix options rest
        · simp [runStats, hc, hs, hlen]
    · simp [runStats, hc]
  · intro hc
    simp [runStats, hc]

/-- Witness for C9: with compile=false on a concrete two-entry queue the
head is consumed, the tail remains, and the callback reports success. -/
theorem runStats_shifts_before_compile_check_witness :
    (runStats ⟨false⟩ [⟨⟨some "a"⟩⟩, ⟨⟨some "b"⟩⟩]).finalQueue <:+ [⟨⟨some "b"⟩⟩] ∧
      runStats ⟨false⟩ [⟨⟨some "a"⟩⟩, ⟨⟨some "b"⟩⟩] =
        { statsCalls := [], infoLogs := [], cbCalls := [true], finalQueue := [⟨⟨some "b"⟩⟩] } :=
  ⟨(runStats_shifts_before_compile_check ⟨false⟩ ⟨⟨some "a"⟩⟩ [⟨⟨some "b"⟩⟩]).1,
   (runStats_shifts_before_compile_check ⟨false⟩ ⟨⟨some "a"⟩⟩ [⟨⟨some "b"⟩⟩]).2 rfl⟩

/-! ## File statistics: `gzipfile` / `gzipSize` / `generateStats` -/

/-- External file-system and compression collaborators: `read` is
`grunt.file.read` (returns the file contents as a string, or throws —
the `.error` case); `gzip` is `zlib.gzip` applied to those contents
(calls back with an error or with the compressed byte buffer, modelled
as its list of bytes). -/
structure FsEnv where
  read : String → Except String String
  gzip : String → Except String (List Nat)

/-- A JavaScript number as it reaches the `gzipSize` callback: an actual
(non-negative integer) byte count, or the `NaN` sentinel. -/
inductive JsNum where
  | num (n : Nat)
  | nan
deriving DecidableEq

/-- Shallow embedding of `helpers.gzipfile` (grunt-helpers.js:315-327).
`grunt.file.read(filename)` runs synchronously, outside any promise
handler: if it throws, the exception escapes `gzipfile` itself before a
deferred can be returned (outer `.error`).  Otherwise `zlib.gzip`
resolves the deferred with the compressed buffer or rejects it with the
compression error (inner `Except`). -/
def gzipfile (env : FsEnv) (filename : String) : Except String (Except String (List Nat)) :=
  match env.read filename with
  | .error e => .error e
  | .ok contents => .ok (env.gzip contents)

/-- Outcome of one `helpers.gzipSize` call: either the synchronous
exception escaping `gzipfile`, or a completed run recording the single
callback argument and whether the promise returned by the
then/otherwise chain rejected. -/
inductive GzipSizeRun where
  | thrown (e : String)
  | ran (cbArg : JsNum) (promiseRejected : Bool)
deriving DecidableEq

/-- Shallow embedding of `helpers.gzipSize` (grunt-helpers.js:98-104).
On a resolved `gzipfile` promise the `then` handler passes `res.length`
to the callback; on a rejected one the `otherwise` handler passes `NaN`.
Both handlers return undefined, so the chained promise resolves in
either case (`promiseRejected = false`).  A synchronous throw out of
`gzipfile` propagates before any handler runs: no callback invocation. -/
def gzipSize (env : FsEnv) (file : String) : GzipSizeRun :=
  match gzipfile env file with
  | .error e => .thrown e
  | .ok (.ok res) => .ran (.num res.length) false
  | .ok (.error _) => .ran .nan false

/-- Whether the `gzipSize` callback was invoked at all during the run. -/
def callbackRan : GzipSizeRun → Bool
  | .thrown _ => false
  | .ran _ _ => true

/-- JavaScript truthiness of a number reaching `if (!gzipSize)`:
falsy exactly for 0 and NaN. -/
def jsFalsy : JsNum → Bool
  | .nan => true
  | .num n => n == 0

/-- Rounding of the rational `num / den` (for `den > 0`) to an integer
count of hundredths, as `toFixed(2)` specifies: the integer n minimising
the distance of n/100 to the value, ties towards the larger n — that is
⌊value·100 + 1/2⌋, computed here in exact integer arithmetic as
⌊(200·num + den) / (2·den)⌋. -/
def jsRound2 (num den : Int) : Int := Int.ediv (200 * num + den) (2 * den)

/-- Render a non-negative count of hundredths as a numeral with exactly
two decimal places, e.g. 10000 ↦ "100.00" and 7 ↦ "0.07". -/
def fixed2RenderNat (m : Nat) : String :=
  toString (m / 100) ++ "." ++ (if m % 100 < 10 then "0" else "") ++ toString (m % 100)

/-- Render a count of hundredths as `Number.prototype.toFixed(2)` does,
minus sign included for negative values. -/
def fixed2Render (n : Int) : String :=
  if n < 0 then "-" ++ fixed2RenderNat n.natAbs else fixed2RenderNat n.toNat

/-- The percent string built at grunt-helpers.js:120:
`'-' + ((1 - (gzipSize / compiledSize)) * 100).toFixed(2) + '%'` — a
literal minus character prepended to the two-decimal rendering of the
value (1 - g/c)·100 = 100·(c - g)/c.  When `compiledSize = 0` (and the
gzip size is truthy, the only way this code is reached) the JS division
yields Infinity, the value is -Infinity, and the string "--Infinity%". -/
def codePercent (gzipSize compiledSize : Nat) : String :=
  if compiledSize = 0 then "--Infinity%"
  else
    "-" ++ fixed2Render (jsRound2 (100 * ((compiledSize : Int) - gzipSize)) compiledSize) ++ "%"

/-- Modelled from the spec's words, for comparison with `codePercent`:
"percent = -(1 - gzipSize/compiledSize) * 100, formatted to two decimal
places with a leading sign".  The value -(1 - g/c)·100 is non-positive
exactly when g ≤ c; its magnitude is rendered to two decimals and
prefixed with the value's sign (the minus sign covering the
non-positive case, per the spec's convention that the figure is
negative when compression shrinks the file). -/
def specPercent (gzipSize compiledSize : Nat) : String :=
  if gzipSize ≤ compiledSize then
    "-" ++ fixed2RenderNat (jsRound2 (100 * ((compiledSize : Int) - gzipSize)) compiledSize).toNat ++ "%"
  else
    "+" ++ fixed2RenderNat (jsRound2 (100 * ((gzipSize : Int) - compiledSize)) compiledSize).toNat ++ "%"

/-- The first info line of `generateStats` (grunt-helpers.js:122-123):
compiled size in kibibytes (two decimals) and in bytes.  ANSI color
decoration dropped. -/
def compiledSizeLine (compiledSize : Nat) : String :=
  "Compiled size:\t" ++ fixed2Render (jsRound2 compiledSize 1024) ++ " kb \t(" ++
    toString compiledSize ++ " bytes)"

/-- The second info line of `generateStats` (grunt-helpers.js:124-125):
gzip size in kibibytes (two decimals) and in bytes, plus the percent
figure. -/
def gzippedSizeLine (gzipSize compiledSize : Nat) : String :=
  "GZipped size:\t" ++ fixed2Render (jsRound2 gzipSize 1024) ++ " kb \t(" ++
    toString gzipSize ++ " bytes) " ++ codePercent gzipSize compiledSize

/-- Outcome of one `helpers.generateStats` call: a synchronous exception,
or a completed run recording the file reads performed after the gzip
callback fired (`readsAfter`), the size log lines, and every invocation
of the completion callback `fn`. -/
inductive GenRun where
  | thrown (e : String)
  | ran (readsAfter : List String) (sizeLogs : List String) (fnCalls : List Bool)
deriving DecidableEq

/-- Shallow embedding of `helpers.generateStats` (grunt-helpers.js:112-129).
`gzipSize` is invoked with a callback; a falsy callback argument (NaN
from a failed compression, or a zero byte count) short-circuits to
`fn(false)` with no further computation.  Otherwise
`grunt.file.read(filePath)` runs again (recorded in `readsAfter`),
`compiledSize` is the length of the contents string, the two info lines
are logged, and `fn(true)` fires. -/
def generateStats (env : FsEnv) (filePath : String) : GenRun :=
  match gzipSize env filePath with
  | .thrown e => .thrown e
  | .ran .nan _ => .ran [] [] [false]
  | .ran (.num g) _ =>
    if g = 0 then .ran [] [] [false]
    else
      match env.read filePath with
      | .error e => .thrown e
      | .ok src =>
        .ran [filePath] [compiledSizeLine src.length, gzippedSizeLine g src.length] [true]

/-- Environment where every file read fails (e.g. a missing file):
`grunt.file.read` throws. -/
def readFailEnv : FsEnv :=
  { read := fun _ => .error "ENOENT", gzip := fun _ => .ok [] }

/-- Environment where reads succeed and compression always fails. -/
def gzipFailEnv : FsEnv :=
  { read := fun _ => .ok "aaaa", gzip := fun _ => .error "Z_DATA_ERROR" }

/-- Environment where reads succeed and compression succeeds with a
three-byte payload. -/
def okGzipEnv : FsEnv :=
  { read := fun _ => .ok "aaaa", gzip := fun _ => .ok [31, 139, 8] }

/-- C3 counterexample: when the file read fails, the exception escapes
`gzipfile` synchronously; `gzipSize` neither invokes its callback (with
NaN or anything else) nor yields a resolved promise.  This refutes "on
any failure (of reading or compressing) invokes the callback with NaN". -/
theorem gzipSize_read_failure_no_callback :
    readFailEnv.read "missing.js" = .error "ENOENT" ∧
      gzipSize readFailEnv "missing.js" = .thrown "ENOENT" ∧
      callbackRan (gzipSize readFailEnv "missing.js") = false :=
  ⟨rfl, rfl, rfl⟩

/-- C3 (amended): provided the file read succeeds, `gzipSize` invokes
its callback exactly once — with the exact byte length of the compressed
payload on a successful compression and with NaN on a compression
failure — and in both cases the promise of the then/otherwise chain
resolves (never rejects).  A read failure instead escapes as a
synchronous exception before the callback can run. -/
theorem gzipSize_callback_spec (env : FsEnv) (file contents : String)
    (hread : env.read file = .ok contents) :
    gzipSize env file =
      (match env.gzip contents with
       | .ok res => GzipSizeRun.ran (.num res.length) false
       | .error _ => GzipSizeRun.ran .nan false) := by
  unfold gzipSize gzipfile
  rw [hread]
  cases hg : env.gzip contents <;> simp [hg]

/-- Witness for the amended C3: a concrete successful compression yields
the callback argument 3 (the compressed byte length) and a resolved
promise. -/
theorem gzipSize_callback_spec_witness :
    gzipSize okGzipEnv "app.js" = GzipSizeRun.ran (.num 3) false :=
  gzipSize_callback_spec okGzipEnv "app.js" "aaaa" rfl

/-- C5: when the gzip-size computation hands the callback a falsy value
(NaN from a failed compression, or a zero byte count), `generateStats`
invokes its completion callback exactly once with `false` and performs
no further computation: no second file read and no size log line. -/
theorem generateStats_falsy_gzip (env : FsEnv) (filePath : String) (v : JsNum) (r : Bool)
    (hrun : gzipSize env filePath = .ran v r)
    (hfalsy : jsFalsy v = true) :
    generateStats env filePath = .ran [] [] [false] := by
  unfold generateStats
  rw [hrun]
  cases v with
  | nan => rfl
  | num n =>
    cases n with
    | zero => rfl
    | succ k => simp [jsFalsy] at hfalsy

/-- Witness for C5: a concrete forced compression failure makes the
callback argument NaN and `generateStats` reports `fn(false)` with no
further work. -/
theorem generateStats_falsy_gzip_witness :
    generateStats gzipFailEnv "app.js" = GenRun.ran [] [] [false] :=
  generateStats_falsy_gzip gzipFailEnv "app.js" JsNum.nan false rfl rfl

/-- The rounded hundredths count is non-negative whenever the rational
being rendered is. -/
theorem jsRound2_nonneg (num den : Int) (hnum : 0 ≤ num) (hden : 0 < den) :
    0 ≤ jsRound2 num den := by
  unfold jsRound2
  have h1 : 0 ≤ 200 * num + den := by nlinarith
  have h2 : 0 ≤ 2 * den := by omega
  exact Int.ediv_nonneg h1 h2

/-- Environment producing a "compressed" payload larger than the raw
contents: one character in, two bytes out. -/
def inflateEnv : FsEnv :=
  { read := fun _ => .ok "a", gzip := fun _ => .ok [31, 139] }

/-- C4 counterexample: with raw size 1 and gzip size 2, the code's
percent string is "--100.00%" — a literal minus prepended to the
already-negative figure -100.00 — whereas -(1 - g/c)·100 formatted to
two decimals with a leading sign is "+100.00%"; `generateStats` logs the
double-minus string on a real run. -/
theorem generateStats_percent_counterexample :
    codePercent 2 1 = "--100.00%" ∧
      specPercent 2 1 = "+100.00%" ∧
      codePercent 2 1 ≠ specPercent 2 1 ∧
      generateStats inflateEnv "tiny.js" =
        GenRun.ran ["tiny.js"] [compiledSizeLine 1, gzippedSizeLine 2 1] [true] := by
  refine ⟨by decide, by decide, by decide, by decide⟩

/-- C4 (amended): whenever the gzip byte count is truthy and does not
exceed the raw size (the only regime in which the value
-(1 - g/c)·100 is non-positive), the percent figure logged by
`generateStats` is exactly -(1 - gzipSize/compiledSize)·100 formatted to
two decimal places with its leading (minus) sign, `compiledSize` being
the length of the file contents; when gzipSize > compiledSize the code
instead prepends a second minus sign to an already-negative figure. -/
theorem generateStats_percent (env : FsEnv) (filePath contents : String) (res : List Nat)
    (hread : env.read filePath = .ok contents)
    (hgz : env.gzip contents = .ok res)
    (hpos : 0 < res.length)
    (hle : res.length ≤ contents.length) :
    generateStats env filePath =
      GenRun.ran [filePath]
        [compiledSizeLine contents.length, gzippedSizeLine res.length contents.length]
        [true] ∧
      codePercent res.length contents.length = specPercent res.length contents.length := by
  have hc0 : contents.length ≠ 0 := by omega
  have hg0 : res.length ≠ 0 := by omega
  constructor
  · unfold generateStats gzipSize gzipfile
    rw [hread]
    simp [hgz, hg0]
  · have hn : 0 ≤ jsRound2 (100 * ((contents.length : Int) - res.length)) contents.length := by
      refine jsRound2_nonneg _ _ ?_ ?_
      · have : (res.length : Int) ≤ contents.length := by exact_mod_cast hle
        nlinarith
      · exact_mod_cast Nat.pos_of_ne_zero hc0
    unfold codePercent specPercent fixed2Render
    rw [if_neg hc0, if_pos hle, if_neg (not_lt.mpr hn)]

/-- Environment for the amended-C4 witness: ten characters of raw
contents compressing to four bytes. -/
def deflateEnv : FsEnv :=
  { read := fun _ => .ok "aaaaaaaaaa", gzip := fun _ => .ok [1, 2, 3, 4] }

/-- Witness for the amended C4 at raw size 10 and gzip size 4: both the
code and the spec formula render "-60.00%". -/
theorem generateStats_percent_witness :
    generateStats deflateEnv "big.js" =
      GenRun.ran ["big.js"] [compiledSizeLine 10, gzippedSizeLine 4 10] [true] ∧
      codePercent 4 10 = specPercent 4 10 :=
  generateStats_percent deflateEnv "big.js" "aaaaaaaaaa" [1, 2, 3, 4] rfl rfl
    (by decide) (by decide)

/-! ## `fileExists` -/

/-- Result of `fs.lstatSync`, classified by the two predicates the code
consults (`isFile`, `isSymbolicLink`); `dir` and `other` cover the
remaining stat kinds. -/
inductive FileKind where
  | file
  | symlink
  | dir
  | other
deriving DecidableEq

/-- Shallow embedding of `helpers.fileExists` (grunt-helpers.js:137-144):
`fs.lstatSync(filePath)` inside try/catch; returns true when the stat
record is a regular file or a symbolic link; any thrown error is
swallowed and false is returned. -/
def fileExists (lstat : String → Except String FileKind) (filePath : String) : Bool :=
  match lstat filePath with
  | .ok stat => stat == FileKind.file || stat == FileKind.symlink
  | .error _ => false

/-- C10: `fileExists` returns true exactly when lstat reports a regular
file or a symbolic link; a path that exists but is a directory yields
false, as does any path whose lstat raises an error. -/
theorem fileExists_iff (lstat : String → Except String FileKind) (filePath : String) :
    (fileExists lstat filePath = true ↔
        lstat filePath = .ok FileKind.file ∨ lstat filePath = .ok FileKind.symlink) ∧
      (lstat filePath = .ok FileKind.dir → fileExists lstat filePath = false) ∧
      (∀ e, lstat filePath = .error e → fileExists lstat filePath = false) := by
  refine ⟨?_, ?_, ?_⟩
  · unfold fileExists
    cases h : lstat filePath with
    | error e => simp
    | ok k => cases k <;> simp
  · intro h
    unfold fileExists
    rw [h]
    rfl
  · intro e h
    unfold fileExists
    rw [h]

/-- Concrete lstat environment for the C10 witness: one regular file,
one directory, everything else failing. -/
def lstatW : String → Except String FileKind := fun p =>
  if p = "a.js" then .ok FileKind.file
  else if p = "dir" then .ok FileKind.dir
  else .error "lstat failed:ENOENT"

/-- Witness for C10: the directory path yields false, the regular file
yields true, the erroring path yields false. -/
theorem fileExists_iff_witness :
    fileExists lstatW "dir" = false ∧
      fileExists lstatW "a.js" = true ∧
      fileExists lstatW "ghost" = false :=
  ⟨(fileExists_iff lstatW "dir").2.1 rfl,
   (fileExists_iff lstatW "a.js").1.mpr (Or.inl rfl),
   (fileExists_iff lstatW "ghost").2.2 "lstat failed:ENOENT" rfl⟩

end GruntHelpers
